import Mathlib

/-!
Verification of the PDO (Process Data Object) engine of the CANopen stack
found in `Forks/Guillermo_ruffino/node_two/components/CANopen/CO_PDO.c`.

The development shallowly embeds the PDO mapping resolver (`CO_PDOfindMap`),
the RPDO/TPDO mapping configurators (`CO_RPDOconfigMap`, `CO_TPDOconfigMap`),
the communication configurators (`CO_RPDOconfigCom`, `CO_TPDOconfigCom`),
the SDO-facing parameter write handlers (`CO_ODF_RPDOcom`, `CO_ODF_TPDOcom`),
the transmit helper (`CO_TPDOsend`) and the receive processor
(`CO_RPDO_process`).  Machine integers are embedded as `Nat` with explicit
masking where the C code truncates; pointers are embedded as abstract byte
addresses (`Nat`); OD storage is a byte memory `Nat → Nat`.

The build configuration embedded here is the one the natural-language
specification describes: `CO_CONFIG_PDO_SYNC_ENABLE` on, little-endian
target, extension-hook features off.  The external collaborators (the OD
accessor, the CAN driver, the NMT state and the SYNC object) are modelled
as abstract parameters, exactly as the specification treats them.
-/

/-- SDO abort code: no abort (success). -/
def CO_SDO_AB_NONE : Nat := 0

/-- SDO abort code: attempt to write a read only object. -/
def CO_SDO_AB_READONLY : Nat := 0x06010002

/-- SDO abort code: unsupported access to an object. -/
def CO_SDO_AB_UNSUPPORTED_ACCESS : Nat := 0x06010000

/-- SDO abort code: object cannot be mapped to the PDO. -/
def CO_SDO_AB_NO_MAP : Nat := 0x06040041

/-- SDO abort code: number and length of the objects to be mapped would
exceed PDO length. -/
def CO_SDO_AB_MAP_LEN : Nat := 0x06040042

/-- SDO abort code: object does not exist in the object dictionary. -/
def CO_SDO_AB_NOT_EXIST : Nat := 0x06020000

/-- SDO abort code: invalid value for parameter (download only). -/
def CO_SDO_AB_INVALID_VALUE : Nat := 0x06090030

/-- SDO abort code: data cannot be transferred or stored to the application
because of the present device state. -/
def CO_SDO_AB_DATA_DEV_STATE : Nat := 0x08000022

/-- SDO abort code: sub-index does not exist. -/
def CO_SDO_AB_SUB_UNKNOWN : Nat := 0x06090011

/-- OD attribute bit: variable is readable. -/
def CO_ODA_READABLE : Nat := 0x04

/-- OD attribute bit: variable is writeable. -/
def CO_ODA_WRITEABLE : Nat := 0x08

/-- OD attribute bit: variable is mappable into an RPDO. -/
def CO_ODA_RPDO_MAPABLE : Nat := 0x10

/-- OD attribute bit: variable is mappable into a TPDO. -/
def CO_ODA_TPDO_MAPABLE : Nat := 0x20

/-- OD attribute bit: change-of-state TPDO detection is requested. -/
def CO_ODA_TPDO_DETECT_COS : Nat := 0x40

/-- OD attribute bit: multibyte value (byte-order sensitive). -/
def CO_ODA_MB_VALUE : Nat := 0x80

/-- One Object-Dictionary entry as seen through the external OD accessor:
for each subindex it yields an attribute bitset, a declared byte length and
an abstract data address.  The specification treats OD storage and lookup
as an external collaborator, so the entry behaviour is an abstract
parameter of every theorem. -/
structure ODEntryM where
  maxSubIndex : Nat
  attr : Nat → Nat
  odLength : Nat → Nat
  dataPtr : Nat → Nat

/-- Abstract model of the SDO object as used by the PDO code: an OD lookup
(`CO_OD_find` returning `none` for entry number 0xFFFF) plus the abstract
addresses of the two static dummy-mapping variables `dummyRX` and
`dummyTX` of `CO_PDOfindMap`. -/
structure SDOmodel where
  find : Nat → Option ODEntryM
  dummyRXaddr : Nat
  dummyTXaddr : Nat

/-- Size table of the dummy-mapping entries of `CO_PDOfindMap`: default 4,
0 for index 0-1, 1 for index 2 and 5, 2 for index 3 and 6. -/
def dummySize (index : Nat) : Nat :=
  if index < 2 then 0
  else if index = 2 ∨ index = 5 then 1
  else if index = 3 ∨ index = 6 then 2
  else 4

/-- Result record of `CO_PDOfindMap`: the returned abort code (0 on
success), the updated accumulated byte length (the C code updates the
caller's `*pLength` in place, also on some failing paths), the resolved
data address, the change-of-state bits this variable contributes to
`*pSendIfCOSFlags`, and the multibyte flag. -/
structure FindMapResult where
  ret : Nat
  length : Nat
  pData : Nat
  cosBits : Nat
  isMB : Bool

/-- Byte length requested by a 32-bit mapping descriptor: low 8 bits are a
bit count, divided by 8 once byte alignment has been checked. -/
def mapByteLen (map : Nat) : Nat := map % 256 / 8

/-- Object-dictionary part of `CO_PDOfindMap` (everything after the dummy
range test): find the entry, check subindex range, mappability attributes
and declared length, and produce data pointer, change-of-state bits and
multibyte flag. -/
def CO_PDOfindMapOD (sdo : SDOmodel) (index subIndex dataLen length rt : Nat) :
    FindMapResult :=
  match sdo.find index with
  | none =>
      { ret := CO_SDO_AB_NOT_EXIST, length := length, pData := 0, cosBits := 0, isMB := false }
  | some e =>
      if e.maxSubIndex < subIndex then
        { ret := CO_SDO_AB_NOT_EXIST, length := length, pData := 0, cosBits := 0, isMB := false }
      else
        if rt = 0 ∧ ¬(e.attr subIndex &&& CO_ODA_RPDO_MAPABLE ≠ 0 ∧
                      e.attr subIndex &&& CO_ODA_WRITEABLE ≠ 0) then
          { ret := CO_SDO_AB_NO_MAP, length := length, pData := 0, cosBits := 0, isMB := false }
        else if rt ≠ 0 ∧ ¬(e.attr subIndex &&& CO_ODA_TPDO_MAPABLE ≠ 0 ∧
                           e.attr subIndex &&& CO_ODA_READABLE ≠ 0) then
          { ret := CO_SDO_AB_NO_MAP, length := length, pData := 0, cosBits := 0, isMB := false }
        else if e.odLength subIndex < dataLen then
          { ret := CO_SDO_AB_NO_MAP, length := length, pData := 0, cosBits := 0, isMB := false }
        else
          { ret := 0,
            length := length,
            pData := e.dataPtr subIndex,
            cosBits := if e.attr subIndex &&& CO_ODA_TPDO_DETECT_COS ≠ 0 then
                         2 ^ length - 2 ^ (length - dataLen) else 0,
            isMB := e.attr subIndex &&& CO_ODA_MB_VALUE != 0 }

/-- Embedding of `CO_PDOfindMap`: resolve one 32-bit mapping descriptor
`map` for direction `rt` (0 = RPDO, 1 = TPDO) given the byte length
`pLength` accumulated so far.  The change-of-state contribution is
returned as a bit mask (`cosBits`) which the caller ORs into its flag
variable, mirroring the in-place `*pSendIfCOSFlags |= 1<<i` writes. -/
def CO_PDOfindMap (sdo : SDOmodel) (map rt pLength : Nat) : FindMapResult :=
  let index := (map >>> 16) % 65536
  let subIndex := (map >>> 8) % 256
  let bitLen := map % 256
  if bitLen % 8 ≠ 0 then
    { ret := CO_SDO_AB_NO_MAP, length := pLength, pData := 0, cosBits := 0, isMB := false }
  else
    let dataLen := bitLen / 8
    let length := pLength + dataLen
    if 8 < length then
      { ret := CO_SDO_AB_MAP_LEN, length := length, pData := 0, cosBits := 0, isMB := false }
    else if index ≤ 7 ∧ subIndex = 0 then
      if dummySize index < dataLen then
        { ret := CO_SDO_AB_NO_MAP, length := length, pData := 0, cosBits := 0, isMB := false }
      else
        { ret := 0, length := length,
          pData := if rt = 0 then sdo.dummyRXaddr else sdo.dummyTXaddr,
          cosBits := 0, isMB := false }
    else
      CO_PDOfindMapOD sdo index subIndex dataLen length rt

/-- Result record of the mapping configurators: returned abort code, the
object's aggregate `dataLength`, the map pointer table (slot number to
byte address), the accumulated `sendIfCOSFlags` (meaningful for the TPDO
configurator; the RPDO configurator discards the flags into a local
dummy), and the list of emergency error reports emitted (one
`CO_EM_PDO_WRONG_MAPPING` report per element, carrying the offending
descriptor). -/
structure ConfigMapResult where
  ret : Nat
  dataLength : Nat
  mapPointer : Nat → Nat
  sendIfCOSFlags : Nat
  emReports : List Nat

/-- Write map-pointer table slots `a ≤ j < b` with the consecutive byte
addresses `p + (j - a)`, as the little-endian `mapPointer[j] = pData++`
loop of the configurators does. -/
def writeMapSlots (mp : Nat → Nat) (a b p : Nat) : Nat → Nat :=
  fun j => if a ≤ j ∧ j < b then p + (j - a) else mp j

/-- Shared loop body of `CO_RPDOconfigMap` and `CO_TPDOconfigMap`: resolve
each descriptor in order via `CO_PDOfindMap`, accumulating the byte length
and writing pointer-table slots; on the first failure reset the length to
0, emit one wrong-mapping error report and stop with that abort code. -/
def CO_PDOconfigMapLoop (sdo : SDOmodel) (rt : Nat) :
    List Nat → Nat → (Nat → Nat) → Nat → ConfigMapResult
  | [], length, mp, cos =>
      { ret := 0, dataLength := length, mapPointer := mp,
        sendIfCOSFlags := cos, emReports := [] }
  | map :: rest, length, mp, cos =>
      let r := CO_PDOfindMap sdo map rt length
      if r.ret ≠ 0 then
        { ret := r.ret, dataLength := 0, mapPointer := mp,
          sendIfCOSFlags := cos, emReports := [map] }
      else
        CO_PDOconfigMapLoop sdo rt rest r.length
          (writeMapSlots mp length r.length r.pData) (cos ||| r.cosBits)

/-- Embedding of `CO_RPDOconfigMap`: rebuild the RPDO pointer table from
the list of mapping descriptors read from the mapping parameter block
(`mappedObject1 …`, `noOfMappedObjects` of them).  `mp0` is the prior
content of the pointer table. -/
def CO_RPDOconfigMap (sdo : SDOmodel) (maps : List Nat) (mp0 : Nat → Nat) :
    ConfigMapResult :=
  CO_PDOconfigMapLoop sdo 0 maps 0 mp0 0

/-- Embedding of `CO_TPDOconfigMap`: as `CO_RPDOconfigMap` but for the
transmit direction; `sendIfCOSFlags` is cleared before the loop and
accumulated across descriptors. -/
def CO_TPDOconfigMap (sdo : SDOmodel) (maps : List Nat) (mp0 : Nat → Nat) :
    ConfigMapResult :=
  CO_PDOconfigMapLoop sdo 1 maps 0 mp0 0

/-- PDO-relevant state of one `CO_RPDO_t` object, together with the
OD-resident communication parameters it references (`cobStored` is
`RPDOCommPar->COB_IDUsedByRPDO`, `transmissionType` is
`RPDOCommPar->transmissionType`).  The two raw receive buffers are byte
maps and `mapPointer` is the table of byte addresses into OD storage. -/
structure CO_RPDO_t where
  valid : Bool
  dataLength : Nat
  synchronous : Bool
  canRxNew0 : Bool
  canRxNew1 : Bool
  restrictionFlags : Nat
  nodeId : Nat
  defaultCOB_ID : Nat
  cobStored : Nat
  transmissionType : Nat
  mapPointer : Nat → Nat
  canRxData0 : Nat → Nat
  canRxData1 : Nat → Nat

/-- PDO-relevant state of one `CO_TPDO_t` object, together with the
OD-resident communication parameters it references.  `canTxData` is the
frame byte buffer of the registered CAN tx slot and `syncFlag` its
synchronous-flag bit. -/
structure CO_TPDO_t where
  valid : Bool
  dataLength : Nat
  sendRequest : Nat
  sendIfCOSFlags : Nat
  restrictionFlags : Nat
  nodeId : Nat
  defaultCOB_ID : Nat
  cobStored : Nat
  transmissionType : Nat
  inhibitTime : Nat
  eventTimerStored : Nat
  syncStartValue : Nat
  inhibitTimer : Nat
  eventTimer : Nat
  syncCounter : Nat
  syncFlag : Nat
  mapPointer : Nat → Nat
  canTxData : Nat → Nat

/-- Embedding of `CO_RPDOconfigCom`: decide validity from the raw COB-ID
field and (re)register the CAN receive buffer.  The external
`CO_CANrxBufferInit` outcome is the parameter `bufInitOk`.  Returns the
updated object together with the CAN identifier passed to the buffer
registration. -/
def CO_RPDOconfigCom (R : CO_RPDO_t) (cob : Nat) (bufInitOk : Bool) :
    CO_RPDO_t × Nat :=
  if cob &&& 0xBFFFF800 = 0 ∧ R.dataLength ≠ 0 ∧ cob % 65536 ≠ 0 then
    let ID := if cob % 65536 = R.defaultCOB_ID then (cob % 65536 + R.nodeId) % 65536
              else cob % 65536
    let R1 := { R with valid := true, synchronous := R.transmissionType ≤ 240 }
    if bufInitOk then (R1, ID)
    else ({ R1 with valid := false, canRxNew0 := false, canRxNew1 := false }, ID)
  else
    ({ R with valid := false, canRxNew0 := false, canRxNew1 := false }, 0)

/-- Embedding of `CO_TPDOconfigCom`: decide validity from the raw COB-ID
field and (re)register the CAN transmit buffer with the given
synchronous-flag bit.  The external `CO_CANtxBufferInit` outcome is the
parameter `txBufOk` (`false` models a null buffer pointer).  Returns the
updated object together with the CAN identifier passed to the buffer
registration. -/
def CO_TPDOconfigCom (T : CO_TPDO_t) (cob syncFlag : Nat) (txBufOk : Bool) :
    CO_TPDO_t × Nat :=
  if cob &&& 0xBFFFF800 = 0 ∧ T.dataLength ≠ 0 ∧ cob % 65536 ≠ 0 then
    let ID := if cob % 65536 = T.defaultCOB_ID then (cob % 65536 + T.nodeId) % 65536
              else cob % 65536
    let T1 := { T with valid := true, syncFlag := syncFlag }
    if txBufOk then (T1, ID) else ({ T1 with valid := false }, ID)
  else
    ({ T with valid := false, syncFlag := syncFlag }, 0)

/-- Default-COB-ID normalization step shared by the COB-ID write paths of
`CO_ODF_RPDOcom` and `CO_ODF_TPDOcom`: if the low 16 bits equal
`defaultCOB_ID + nodeId`, the value is rewritten to keep only bits 30-31
and the bare default identifier. -/
def CO_PDOcobNormalize (defaultCOB_ID nodeId v : Nat) : Nat :=
  if v &&& 0xFFFF = defaultCOB_ID + nodeId then (v &&& 0xC0000000) + defaultCOB_ID
  else v

/-- Embedding of the write branch of `CO_ODF_RPDOcom`: service an SDO
write of `data` to subindex `subIndex` of the RPDO communication
parameter record, with the device operational state and the external
receive-buffer registration outcome as parameters.  Returns the abort
code (0 = success) and the updated object. -/
def CO_ODF_RPDOcom (R : CO_RPDO_t) (operational : Bool)
    (subIndex data : Nat) (bufInitOk : Bool) : Nat × CO_RPDO_t :=
  if R.restrictionFlags &&& 0x04 ≠ 0 then (CO_SDO_AB_READONLY, R)
  else if operational = true ∧ R.restrictionFlags &&& 0x01 ≠ 0 then
    (CO_SDO_AB_DATA_DEV_STATE, R)
  else if subIndex = 1 then
    let value := data % 4294967296
    if value &&& 0x3FFF8000 ≠ 0 then (CO_SDO_AB_INVALID_VALUE, R)
    else
      let value := CO_PDOcobNormalize R.defaultCOB_ID R.nodeId value
      if R.valid = true ∧ (value ^^^ R.cobStored) &&& 0x3FFFFFFF ≠ 0 then
        (CO_SDO_AB_INVALID_VALUE, R)
      else
        (CO_SDO_AB_NONE, (CO_RPDOconfigCom R value bufInitOk).1)
  else if subIndex = 2 then
    let v := data % 256
    if 241 ≤ v ∧ v ≤ 253 then (CO_SDO_AB_INVALID_VALUE, R)
    else
      let sync1 := decide (v ≤ 240)
      (CO_SDO_AB_NONE,
        { R with synchronous := sync1,
                 canRxNew1 := if sync1 ≠ R.synchronous then false else R.canRxNew1 })
  else (CO_SDO_AB_NONE, R)

/-- Embedding of the write branch of `CO_ODF_TPDOcom`: service an SDO
write of `data` to subindex `subIndex` of the TPDO communication
parameter record.  Returns the abort code (0 = success) and the updated
object. -/
def CO_ODF_TPDOcom (T : CO_TPDO_t) (operational : Bool)
    (subIndex data : Nat) (txBufOk : Bool) : Nat × CO_TPDO_t :=
  if subIndex = 4 then (CO_SDO_AB_SUB_UNKNOWN, T)
  else if T.restrictionFlags &&& 0x04 ≠ 0 then (CO_SDO_AB_READONLY, T)
  else if operational = true ∧ T.restrictionFlags &&& 0x01 ≠ 0 then
    (CO_SDO_AB_DATA_DEV_STATE, T)
  else if subIndex = 1 then
    let value := data % 4294967296
    if value &&& 0x3FFF8000 ≠ 0 then (CO_SDO_AB_INVALID_VALUE, T)
    else
      let value := CO_PDOcobNormalize T.defaultCOB_ID T.nodeId value
      if T.valid = true ∧ (value ^^^ T.cobStored) &&& 0x3FFFFFFF ≠ 0 then
        (CO_SDO_AB_INVALID_VALUE, T)
      else
        let T1 := (CO_TPDOconfigCom T value T.syncFlag txBufOk).1
        (CO_SDO_AB_NONE, { T1 with syncCounter := 255 })
  else if subIndex = 2 then
    let v := data % 256
    if 241 ≤ v ∧ v ≤ 253 then (CO_SDO_AB_INVALID_VALUE, T)
    else
      (CO_SDO_AB_NONE,
        { T with syncFlag := if v ≤ 240 then 1 else 0, syncCounter := 255 })
  else if subIndex = 3 then
    if T.valid = true then (CO_SDO_AB_INVALID_VALUE, T)
    else (CO_SDO_AB_NONE, { T with inhibitTimer := 0 })
  else if subIndex = 5 then
    (CO_SDO_AB_NONE, { T with eventTimer := data % 65536 * 1000 })
  else if subIndex = 6 then
    if T.valid = true then (CO_SDO_AB_INVALID_VALUE, T)
    else if 240 < data % 256 then (CO_SDO_AB_INVALID_VALUE, T)
    else (CO_SDO_AB_NONE, T)
  else (CO_SDO_AB_NONE, T)

/-- Embedding of `CO_TPDOsend` (extension hooks disabled): copy the mapped
OD bytes into the CAN frame buffer in table order, clear the pending-send
flag, and hand the frame to the external CAN send primitive whose outcome
is the parameter `canSendRet`. -/
def CO_TPDOsend (T : CO_TPDO_t) (mem : Nat → Nat) (canSendRet : Int) :
    CO_TPDO_t × Int :=
  let data1 := fun i => if i < T.dataLength then mem (T.mapPointer i) else T.canTxData i
  ({ T with canTxData := data1, sendRequest := 0 }, canSendRet)

/-- Copy the first `n` bytes of the receive buffer `buf` into OD storage
`mem` through the map pointer table `mp`, in ascending slot order (later
writes win on aliased addresses), as the copy loop of `CO_RPDO_process`
does. -/
def copyPDOtoOD (mp buf mem : Nat → Nat) : Nat → (Nat → Nat)
  | 0 => mem
  | Nat.succ n =>
      fun a => if a = mp n then buf n else copyPDOtoOD mp buf mem n a

/-- Embedding of `CO_RPDO_process` (sequential semantics; extension hooks
disabled): given the operational state, the SYNC-occurred flag of this
tick, the presence of the SYNC object and its receive toggle, and the OD
byte storage `mem`, return the updated object and storage.  The C drain
loop runs at most once here because no concurrent producer re-sets the
new-data flag mid-copy. -/
def CO_RPDO_process (R : CO_RPDO_t) (operational syncWas syncPresent syncToggle : Bool)
    (mem : Nat → Nat) : CO_RPDO_t × (Nat → Nat) :=
  if R.valid = false ∨ operational = false then
    ({ R with canRxNew0 := false, canRxNew1 := false }, mem)
  else if R.synchronous = true ∧ syncWas = false then (R, mem)
  else
    let bufNo1 := syncPresent = true ∧ R.synchronous = true ∧ syncToggle = false
    if bufNo1 then
      if R.canRxNew1 = true then
        ({ R with canRxNew1 := false },
         copyPDOtoOD R.mapPointer R.canRxData1 mem R.dataLength)
      else (R, mem)
    else
      if R.canRxNew0 = true then
        ({ R with canRxNew0 := false },
         copyPDOtoOD R.mapPointer R.canRxData0 mem R.dataLength)
      else (R, mem)


/-- The OD branch of the resolver never changes the accumulated length. -/
theorem CO_PDOfindMapOD_length (sdo : SDOmodel) (i s d L rt : Nat) :
    (CO_PDOfindMapOD sdo i s d L rt).length = L := by
  unfold CO_PDOfindMapOD
  cases sdo.find i with
  | none => rfl
  | some e => dsimp only; split_ifs <;> rfl

/-- The abort code of the OD branch does not depend on the accumulated
length. -/
theorem CO_PDOfindMapOD_ret_indep (sdo : SDOmodel) (i s d L L1 rt : Nat) :
    (CO_PDOfindMapOD sdo i s d L rt).ret = (CO_PDOfindMapOD sdo i s d L1 rt).ret := by
  unfold CO_PDOfindMapOD
  cases sdo.find i with
  | none => rfl
  | some e => dsimp only; split_ifs <;> rfl

/-- On success the resolver adds exactly the descriptor's byte length to
the accumulated length, and the new total stays within 8 bytes. -/
theorem CO_PDOfindMap_ret_zero (sdo : SDOmodel) (map rt l : Nat)
    (h : (CO_PDOfindMap sdo map rt l).ret = 0) :
    (CO_PDOfindMap sdo map rt l).length = l + mapByteLen map ∧
      l + mapByteLen map ≤ 8 := by
  unfold CO_PDOfindMap at h ⊢
  simp only [mapByteLen]
  by_cases h1 : map % 256 % 8 ≠ 0
  · rw [if_pos h1] at h
    exact absurd h (by simp [CO_SDO_AB_NO_MAP])
  · rw [if_neg h1] at h ⊢
    by_cases h2 : 8 < l + map % 256 / 8
    · rw [if_pos h2] at h
      exact absurd h (by simp [CO_SDO_AB_MAP_LEN])
    · rw [if_neg h2] at h ⊢
      refine ⟨?_, Nat.le_of_not_lt h2⟩
      split_ifs at h ⊢ <;> first
        | rfl
        | exact absurd h (by simp [CO_SDO_AB_NO_MAP])
        | exact CO_PDOfindMapOD_length sdo _ _ _ _ rt

/-- A descriptor that resolves from accumulated length 0 also resolves
from any accumulated length that keeps the total within 8 bytes, adding
the same byte count. -/
theorem CO_PDOfindMap_shift (sdo : SDOmodel) (map rt l : Nat)
    (h : (CO_PDOfindMap sdo map rt 0).ret = 0)
    (hl : l + mapByteLen map ≤ 8) :
    (CO_PDOfindMap sdo map rt l).ret = 0 ∧
      (CO_PDOfindMap sdo map rt l).length = l + mapByteLen map := by
  have hret : (CO_PDOfindMap sdo map rt l).ret = 0 := by
    unfold CO_PDOfindMap at h ⊢
    by_cases h1 : map % 256 % 8 ≠ 0
    · rw [if_pos h1] at h
      exact absurd h (by simp [CO_SDO_AB_NO_MAP])
    · rw [if_neg h1] at h ⊢
      by_cases h0 : 8 < 0 + map % 256 / 8
      · rw [if_pos h0] at h
        exact absurd h (by simp [CO_SDO_AB_MAP_LEN])
      · rw [if_neg h0] at h
        have h2 : ¬ 8 < l + map % 256 / 8 := by
          simp only [mapByteLen] at hl; omega
        rw [if_neg h2]
        split_ifs at h ⊢ <;> first
          | rfl
          | (rw [CO_PDOfindMapOD_ret_indep sdo _ _ _ _ (0 + map % 256 / 8) rt]
             exact h)
          | exact absurd h (by simp [CO_SDO_AB_NO_MAP])
  exact ⟨hret, (CO_PDOfindMap_ret_zero sdo map rt l hret).1⟩

/-- The configuration loop keeps the aggregate length within 8 bytes
whenever it starts within 8 bytes. -/
theorem CO_PDOconfigMapLoop_le (sdo : SDOmodel) (rt : Nat) :
    ∀ (maps : List Nat) (l : Nat) (mp : Nat → Nat) (cos : Nat), l ≤ 8 →
      (CO_PDOconfigMapLoop sdo rt maps l mp cos).dataLength ≤ 8
  | [], l, mp, cos, hl => hl
  | map :: rest, l, mp, cos, hl => by
    simp only [CO_PDOconfigMapLoop]
    by_cases hr : (CO_PDOfindMap sdo map rt l).ret ≠ 0
    · simp only [if_pos hr]
      exact Nat.zero_le 8
    · simp only [if_neg hr]
      push_neg at hr
      have h8 := (CO_PDOfindMap_ret_zero sdo map rt l hr)
      exact CO_PDOconfigMapLoop_le sdo rt rest _ _ _ (h8.1 ▸ h8.2)

/-- Running the configuration loop over a concatenation: when the first
part fully succeeds, the run continues over the second part from the
state the first part produced. -/
theorem CO_PDOconfigMapLoop_append (sdo : SDOmodel) (rt : Nat) :
    ∀ (xs ys : List Nat) (l : Nat) (mp : Nat → Nat) (cos : Nat),
      (CO_PDOconfigMapLoop sdo rt xs l mp cos).ret = 0 →
      CO_PDOconfigMapLoop sdo rt (xs ++ ys) l mp cos =
        CO_PDOconfigMapLoop sdo rt ys
          (CO_PDOconfigMapLoop sdo rt xs l mp cos).dataLength
          (CO_PDOconfigMapLoop sdo rt xs l mp cos).mapPointer
          (CO_PDOconfigMapLoop sdo rt xs l mp cos).sendIfCOSFlags
  | [], ys, l, mp, cos, _ => by simp only [List.nil_append, CO_PDOconfigMapLoop]
  | x :: xs, ys, l, mp, cos, h => by
    simp only [List.cons_append, CO_PDOconfigMapLoop] at h ⊢
    by_cases hr : (CO_PDOfindMap sdo x rt l).ret ≠ 0
    · rw [if_pos hr] at h
      exact absurd h hr
    · rw [if_neg hr] at h ⊢
      rw [if_neg hr]
      exact CO_PDOconfigMapLoop_append sdo rt xs ys _ _ _ h

/-- When every descriptor resolves from a fresh length and the running
total stays within 8 bytes, the configuration loop succeeds and its final
length is the starting length plus the sum of the byte lengths. -/
theorem CO_PDOconfigMapLoop_success (sdo : SDOmodel) (rt : Nat) :
    ∀ (maps : List Nat) (l : Nat) (mp : Nat → Nat) (cos : Nat),
      (∀ m ∈ maps, (CO_PDOfindMap sdo m rt 0).ret = 0) →
      l + (maps.map mapByteLen).sum ≤ 8 →
      (CO_PDOconfigMapLoop sdo rt maps l mp cos).ret = 0 ∧
        (CO_PDOconfigMapLoop sdo rt maps l mp cos).dataLength =
          l + (maps.map mapByteLen).sum
  | [], l, mp, cos, _, _ => ⟨rfl, by simp [CO_PDOconfigMapLoop]⟩
  | map :: rest, l, mp, cos, hall, hsum => by
    have hsum1 : l + mapByteLen map ≤ 8 := by
      simp only [List.map_cons, List.sum_cons] at hsum
      omega
    have hshift := CO_PDOfindMap_shift sdo map rt l
      (hall map (List.mem_cons_self map rest)) hsum1
    simp only [CO_PDOconfigMapLoop]
    rw [if_neg (by simp [hshift.1])]
    have hrest := CO_PDOconfigMapLoop_success sdo rt rest
      (CO_PDOfindMap sdo map rt l).length
      (writeMapSlots mp l (CO_PDOfindMap sdo map rt l).length
        (CO_PDOfindMap sdo map rt l).pData)
      (cos ||| (CO_PDOfindMap sdo map rt l).cosBits)
      (fun m hm => hall m (List.mem_cons_of_mem map hm))
      (by simp only [List.map_cons, List.sum_cons] at hsum
          rw [hshift.2]; omega)
    refine ⟨hrest.1, ?_⟩
    rw [hrest.2, hshift.2]
    simp only [List.map_cons, List.sum_cons]
    omega

/-- Core of the first-failure behaviour: appending a failing descriptor
after a fully successful prefix makes the loop stop there with that abort
code, a zeroed length and exactly one error report. -/
theorem CO_PDOconfigMapLoop_first_failure (sdo : SDOmodel) (rt : Nat)
    (pre : List Nat) (m : Nat) (post : List Nat) (mp0 : Nat → Nat)
    (h0 : (CO_PDOconfigMapLoop sdo rt pre 0 mp0 0).ret = 0)
    (hf : (CO_PDOfindMap sdo m rt
            (CO_PDOconfigMapLoop sdo rt pre 0 mp0 0).dataLength).ret ≠ 0) :
    (CO_PDOconfigMapLoop sdo rt (pre ++ m :: post) 0 mp0 0).ret =
      (CO_PDOfindMap sdo m rt
        (CO_PDOconfigMapLoop sdo rt pre 0 mp0 0).dataLength).ret ∧
    (CO_PDOconfigMapLoop sdo rt (pre ++ m :: post) 0 mp0 0).dataLength = 0 ∧
    (CO_PDOconfigMapLoop sdo rt (pre ++ m :: post) 0 mp0 0).emReports = [m] := by
  rw [CO_PDOconfigMapLoop_append sdo rt pre (m :: post) 0 mp0 0 h0]
  simp only [CO_PDOconfigMapLoop]
  rw [if_pos hf]
  exact ⟨rfl, rfl, rfl⟩

/-- Descriptor encoding: OD index, OD subindex and bit length packed into
one 32-bit mapping descriptor. -/
def mkMap (index subIndex bitLen : Nat) : Nat :=
  index * 65536 + subIndex * 256 + bitLen

/-- Concrete OD model used by closed witness evaluations: an empty object
dictionary plus arbitrary distinct dummy-variable addresses. -/
def sdo0 : SDOmodel :=
  { find := fun _ => none, dummyRXaddr := 1000, dummyTXaddr := 2000 }

/-- Prior map-pointer table content used by closed witness evaluations. -/
def mp0fun : Nat → Nat := fun _ => 0

/-- C1: for every list of mapping descriptors in which some descriptor
fails to resolve, both `CO_RPDOconfigMap` and `CO_TPDOconfigMap` stop at
the first failing descriptor, set the aggregate `dataLength` to 0, emit
exactly one wrong-PDO-mapping error report (carrying that descriptor),
and return that descriptor's abort code. -/
theorem configMap_aborts_on_first_failure (sdo : SDOmodel)
    (pre : List Nat) (m : Nat) (post : List Nat) (mp0 : Nat → Nat) :
    ((CO_RPDOconfigMap sdo pre mp0).ret = 0 →
      (CO_PDOfindMap sdo m 0 (CO_RPDOconfigMap sdo pre mp0).dataLength).ret ≠ 0 →
      (CO_RPDOconfigMap sdo (pre ++ m :: post) mp0).ret =
        (CO_PDOfindMap sdo m 0 (CO_RPDOconfigMap sdo pre mp0).dataLength).ret ∧
      (CO_RPDOconfigMap sdo (pre ++ m :: post) mp0).dataLength = 0 ∧
      (CO_RPDOconfigMap sdo (pre ++ m :: post) mp0).emReports = [m]) ∧
    ((CO_TPDOconfigMap sdo pre mp0).ret = 0 →
      (CO_PDOfindMap sdo m 1 (CO_TPDOconfigMap sdo pre mp0).dataLength).ret ≠ 0 →
      (CO_TPDOconfigMap sdo (pre ++ m :: post) mp0).ret =
        (CO_PDOfindMap sdo m 1 (CO_TPDOconfigMap sdo pre mp0).dataLength).ret ∧
      (CO_TPDOconfigMap sdo (pre ++ m :: post) mp0).dataLength = 0 ∧
      (CO_TPDOconfigMap sdo (pre ++ m :: post) mp0).emReports = [m]) :=
  ⟨fun h0 hf => CO_PDOconfigMapLoop_first_failure sdo 0 pre m post mp0 h0 hf,
   fun h0 hf => CO_PDOconfigMapLoop_first_failure sdo 1 pre m post mp0 h0 hf⟩

/-- Witness for C1: a successful 2-byte dummy mapping followed by an
oversized dummy mapping (2 bytes requested from the 1-byte dummy at index
2) aborts with `NoMap`, zeroes the length and reports the offending
descriptor once. -/
theorem configMap_aborts_on_first_failure_w :
    (CO_RPDOconfigMap sdo0 [mkMap 4 0 16, mkMap 2 0 16] mp0fun).ret =
      CO_SDO_AB_NO_MAP ∧
    (CO_RPDOconfigMap sdo0 [mkMap 4 0 16, mkMap 2 0 16] mp0fun).dataLength = 0 ∧
    (CO_RPDOconfigMap sdo0 [mkMap 4 0 16, mkMap 2 0 16] mp0fun).emReports =
      [mkMap 2 0 16] ∧
    (CO_TPDOconfigMap sdo0 [mkMap 4 0 16, mkMap 2 0 16] mp0fun).ret =
      CO_SDO_AB_NO_MAP := by
  have h := configMap_aborts_on_first_failure sdo0 [mkMap 4 0 16]
    (mkMap 2 0 16) [] mp0fun
  have hR := h.1 (by decide) (by decide)
  have hT := h.2 (by decide) (by decide)
  exact ⟨hR.1.trans (by decide), hR.2.1, hR.2.2, hT.1.trans (by decide)⟩

/-- C2: after any call to `CO_RPDOconfigMap` or `CO_TPDOconfigMap`, with
any descriptor list, the aggregate `dataLength` is at most 8. -/
theorem configMap_dataLength_le_eight (sdo : SDOmodel) (maps : List Nat)
    (mp0 : Nat → Nat) :
    (CO_RPDOconfigMap sdo maps mp0).dataLength ≤ 8 ∧
    (CO_TPDOconfigMap sdo maps mp0).dataLength ≤ 8 :=
  ⟨CO_PDOconfigMapLoop_le sdo 0 maps 0 mp0 0 (by norm_num),
   CO_PDOconfigMapLoop_le sdo 1 maps 0 mp0 0 (by norm_num)⟩

/-- C3: for at most 8 descriptors that each resolve successfully and whose
byte lengths sum to at most 8, the configurators return 0 and set the
aggregate `dataLength` to exactly that sum. -/
theorem configMap_success_sum (sdo : SDOmodel) (maps : List Nat)
    (mp0 : Nat → Nat) (_hN : maps.length ≤ 8)
    (hR : ∀ m ∈ maps, (CO_PDOfindMap sdo m 0 0).ret = 0)
    (hT : ∀ m ∈ maps, (CO_PDOfindMap sdo m 1 0).ret = 0)
    (hsum : (maps.map mapByteLen).sum ≤ 8) :
    (CO_RPDOconfigMap sdo maps mp0).ret = 0 ∧
    (CO_RPDOconfigMap sdo maps mp0).dataLength = (maps.map mapByteLen).sum ∧
    (CO_TPDOconfigMap sdo maps mp0).ret = 0 ∧
    (CO_TPDOconfigMap sdo maps mp0).dataLength = (maps.map mapByteLen).sum := by
  have hRr := CO_PDOconfigMapLoop_success sdo 0 maps 0 mp0 0 hR
    (by simpa using hsum)
  have hTr := CO_PDOconfigMapLoop_success sdo 1 maps 0 mp0 0 hT
    (by simpa using hsum)
  exact ⟨hRr.1, by simpa using hRr.2, hTr.1, by simpa using hTr.2⟩

/-- Witness for C3: a 4-byte and a 1-byte dummy mapping resolve on both
sides, giving success with aggregate length 5. -/
theorem configMap_success_sum_w :
    (CO_RPDOconfigMap sdo0 [mkMap 4 0 32, mkMap 2 0 8] mp0fun).ret = 0 ∧
    (CO_RPDOconfigMap sdo0 [mkMap 4 0 32, mkMap 2 0 8] mp0fun).dataLength = 5 ∧
    (CO_TPDOconfigMap sdo0 [mkMap 4 0 32, mkMap 2 0 8] mp0fun).ret = 0 ∧
    (CO_TPDOconfigMap sdo0 [mkMap 4 0 32, mkMap 2 0 8] mp0fun).dataLength = 5 := by
  have h := configMap_success_sum sdo0 [mkMap 4 0 32, mkMap 2 0 8] mp0fun
    (by decide) (by decide) (by decide) (by decide)
  exact ⟨h.1, h.2.1.trans (by decide), h.2.2.1, h.2.2.2.trans (by decide)⟩

/-- Validity outcome of `CO_RPDOconfigCom`: the object becomes valid
exactly when bit 31 and bits 11-29 of the COB-ID are zero (`0xBFFFF800`
mask), the mapped length is non-zero, the low 16 bits are non-zero, and
the CAN receive buffer registration succeeds. -/
theorem CO_RPDOconfigCom_valid (R : CO_RPDO_t) (cob : Nat) (bufOk : Bool) :
    (CO_RPDOconfigCom R cob bufOk).1.valid = true ↔
      (cob &&& 0xBFFFF800 = 0 ∧ R.dataLength ≠ 0 ∧ cob % 65536 ≠ 0 ∧
        bufOk = true) := by
  unfold CO_RPDOconfigCom
  split_ifs with hu hd hb hb2
  · simp [hu.1, hu.2.1, hu.2.2, hb]
  · simp [hb]
  · simp [hu.1, hu.2.1, hu.2.2, hb2]
  · simp [hb2]
  · exact iff_of_false (by simp) (fun h => hu ⟨h.1, h.2.1, h.2.2.1⟩)

/-- CAN identifier registered by `CO_RPDOconfigCom` when the COB-ID is
accepted: the node ID is added exactly when the low 16 bits equal the
compiled-in default COB-ID. -/
theorem CO_RPDOconfigCom_ID (R : CO_RPDO_t) (cob : Nat) (bufOk : Bool)
    (h1 : cob &&& 0xBFFFF800 = 0) (h2 : R.dataLength ≠ 0)
    (h3 : cob % 65536 ≠ 0) :
    (CO_RPDOconfigCom R cob bufOk).2 =
      if cob % 65536 = R.defaultCOB_ID then (R.defaultCOB_ID + R.nodeId) % 65536
      else cob % 65536 := by
  unfold CO_RPDOconfigCom
  rw [if_pos ⟨h1, h2, h3⟩]
  split_ifs with hd hb hb
  · simp [hd]
  · simp [hd]
  · rfl
  · rfl

/-- Validity outcome of `CO_TPDOconfigCom`: as on the receive side, with
the transmit buffer registration outcome in place of the receive one. -/
theorem CO_TPDOconfigCom_valid (T : CO_TPDO_t) (cob syncFlag : Nat)
    (txOk : Bool) :
    (CO_TPDOconfigCom T cob syncFlag txOk).1.valid = true ↔
      (cob &&& 0xBFFFF800 = 0 ∧ T.dataLength ≠ 0 ∧ cob % 65536 ≠ 0 ∧
        txOk = true) := by
  unfold CO_TPDOconfigCom
  split_ifs with hu hd hb hb2
  · simp [hu.1, hu.2.1, hu.2.2, hb]
  · simp [hb]
  · simp [hu.1, hu.2.1, hu.2.2, hb2]
  · simp [hb2]
  · exact iff_of_false (by simp) (fun h => hu ⟨h.1, h.2.1, h.2.2.1⟩)

/-- CAN identifier registered by `CO_TPDOconfigCom` when the COB-ID is
accepted. -/
theorem CO_TPDOconfigCom_ID (T : CO_TPDO_t) (cob syncFlag : Nat)
    (txOk : Bool) (h1 : cob &&& 0xBFFFF800 = 0) (h2 : T.dataLength ≠ 0)
    (h3 : cob % 65536 ≠ 0) :
    (CO_TPDOconfigCom T cob syncFlag txOk).2 =
      if cob % 65536 = T.defaultCOB_ID then (T.defaultCOB_ID + T.nodeId) % 65536
      else cob % 65536 := by
  unfold CO_TPDOconfigCom
  rw [if_pos ⟨h1, h2, h3⟩]
  split_ifs with hd hb hb
  · simp [hd]
  · simp [hd]
  · rfl
  · rfl

/-- Concrete RPDO object used in closed evaluations: currently invalid,
one mapped byte, no write restrictions, node ID 0, default COB-ID 0x300,
stored COB-ID 0x205, event-driven transmission type. -/
def sampleRPDO : CO_RPDO_t :=
  { valid := false, dataLength := 1, synchronous := false,
    canRxNew0 := false, canRxNew1 := false, restrictionFlags := 0,
    nodeId := 0, defaultCOB_ID := 0x300, cobStored := 0x205,
    transmissionType := 255, mapPointer := fun _ => 0,
    canRxData0 := fun _ => 0, canRxData1 := fun _ => 0 }

/-- Concrete TPDO object used in closed evaluations: currently invalid,
two mapped bytes, no write restrictions, node ID 5, default COB-ID 0x185,
event-driven transmission type. -/
def sampleTPDO : CO_TPDO_t :=
  { valid := false, dataLength := 2, sendRequest := 0, sendIfCOSFlags := 0,
    restrictionFlags := 0, nodeId := 5, defaultCOB_ID := 0x185,
    cobStored := 0x185, transmissionType := 255, inhibitTime := 0,
    eventTimerStored := 0, syncStartValue := 0, inhibitTimer := 0,
    eventTimer := 0, syncCounter := 255, syncFlag := 0,
    mapPointer := fun _ => 0, canTxData := fun _ => 0 }

/-- C5 (amended): for every 32-bit COB-ID value given to
`CO_RPDOconfigCom` or `CO_TPDOconfigCom`, the object becomes valid if and
only if bit 31 and bits 11-29 of the value are zero (mask `0xBFFFF800`;
bit 30 is ignored by the code), the mapped `dataLength` is non-zero, the
low 16 bits are non-zero, and buffer registration succeeds; moreover when
the 16-bit identifier equals the channel's compiled-in default COB-ID the
node ID is added to form the effective CAN identifier handed to the CAN
device. -/
theorem configCom_valid_iff (R : CO_RPDO_t) (T : CO_TPDO_t)
    (cob syncFlag : Nat) (bufOk txOk : Bool) :
    ((CO_RPDOconfigCom R cob bufOk).1.valid = true ↔
      (cob &&& 0xBFFFF800 = 0 ∧ R.dataLength ≠ 0 ∧ cob % 65536 ≠ 0 ∧
        bufOk = true)) ∧
    (cob &&& 0xBFFFF800 = 0 → R.dataLength ≠ 0 → cob % 65536 ≠ 0 →
      cob % 65536 = R.defaultCOB_ID →
      (CO_RPDOconfigCom R cob bufOk).2 = (R.defaultCOB_ID + R.nodeId) % 65536) ∧
    ((CO_TPDOconfigCom T cob syncFlag txOk).1.valid = true ↔
      (cob &&& 0xBFFFF800 = 0 ∧ T.dataLength ≠ 0 ∧ cob % 65536 ≠ 0 ∧
        txOk = true)) ∧
    (cob &&& 0xBFFFF800 = 0 → T.dataLength ≠ 0 → cob % 65536 ≠ 0 →
      cob % 65536 = T.defaultCOB_ID →
      (CO_TPDOconfigCom T cob syncFlag txOk).2 = (T.defaultCOB_ID + T.nodeId) % 65536) := by
  refine ⟨CO_RPDOconfigCom_valid R cob bufOk, ?_,
    CO_TPDOconfigCom_valid T cob syncFlag txOk, ?_⟩
  · intro h1 h2 h3 hd
    rw [CO_RPDOconfigCom_ID R cob bufOk h1 h2 h3, if_pos hd]
  · intro h1 h2 h3 hd
    rw [CO_TPDOconfigCom_ID T cob syncFlag txOk h1 h2 h3, if_pos hd]

/-- Counterexample to C5 as stated: the COB-ID value `0x40000205` has bit
30 set, yet `CO_RPDOconfigCom` marks the object valid, because the code's
mask `0xBFFFF800` does not cover bit 30. -/
theorem configCom_bit30_counterexample :
    (CO_RPDOconfigCom sampleRPDO 0x40000205 true).1.valid = true ∧
    (0x40000205 >>> 30) % 2 = 1 := by
  constructor
  · decide
  · decide

/-- Witness for C5: a default-identifier COB-ID write on both sides
yields a valid object whose registered CAN identifier is the default plus
the node ID. -/
theorem configCom_valid_iff_w :
    (CO_RPDOconfigCom sampleRPDO 0x300 true).1.valid = true ∧
    (CO_RPDOconfigCom sampleRPDO 0x300 true).2 = 0x300 ∧
    (CO_TPDOconfigCom sampleTPDO 0x185 1 true).1.valid = true ∧
    (CO_TPDOconfigCom sampleTPDO 0x185 1 true).2 = 0x18A := by
  have h1 := configCom_valid_iff sampleRPDO sampleTPDO 0x300 1 true true
  have h2 := configCom_valid_iff sampleRPDO sampleTPDO 0x185 1 true true
  refine ⟨h1.1.mpr ⟨by decide, by decide, by decide, rfl⟩,
    (h1.2.1 (by decide) (by decide) (by decide) (by decide)).trans (by decide),
    h2.2.2.1.mpr ⟨by decide, by decide, by decide, rfl⟩,
    (h2.2.2.2 (by decide) (by decide) (by decide) (by decide)).trans (by decide)⟩

/-- C4 (divergence witness): a COB-ID write of `0x800` — bit 11 set, so
bits 11-29 are not all zero — is accepted by both communication handlers
(abort code 0) and the configuration is applied (leaving the object
invalid), although the code's own comment says bits 11..29 must be zero:
the mask `0x3FFF8000` only screens bits 15-29. -/
theorem ODF_com_cobid_bit11_accepted :
    (CO_ODF_RPDOcom sampleRPDO false 1 0x800 true).1 = CO_SDO_AB_NONE ∧
    (CO_ODF_RPDOcom sampleRPDO false 1 0x800 true).2.valid = false ∧
    (CO_ODF_TPDOcom sampleTPDO false 1 0x800 true).1 = CO_SDO_AB_NONE ∧
    (0x800 >>> 11) % 2 = 1 := by
  refine ⟨by decide, by decide, by decide, by decide⟩

/-- C6 (amended): while the object is valid, a COB-ID write whose
default-normalized value changes any of bits 0-29 of the stored COB-ID is
rejected with `InvalidValue` and leaves the object unchanged; the same
write while the object is invalid (and passing the bits-15-29 screen,
which would abort in either state) succeeds, and the object then becomes
valid iff the normalized value passes the `0xBFFFF800` mask, has non-zero
low 16 bits, the mapped `dataLength` is non-zero and buffer registration
succeeds. -/
theorem ODF_com_cobid_live_change (R : CO_RPDO_t) (T : CO_TPDO_t)
    (operational : Bool) (v : Nat) (bufOk txOk : Bool) :
    (R.restrictionFlags &&& 0x04 = 0 →
      ¬(operational = true ∧ R.restrictionFlags &&& 0x01 ≠ 0) →
      ((R.valid = true →
        (CO_PDOcobNormalize R.defaultCOB_ID R.nodeId (v % 4294967296) ^^^
          R.cobStored) &&& 0x3FFFFFFF ≠ 0 →
        CO_ODF_RPDOcom R operational 1 v bufOk = (CO_SDO_AB_INVALID_VALUE, R)) ∧
       (R.valid = false → v % 4294967296 &&& 0x3FFF8000 = 0 →
        (CO_ODF_RPDOcom R operational 1 v bufOk).1 = CO_SDO_AB_NONE ∧
        ((CO_ODF_RPDOcom R operational 1 v bufOk).2.valid = true ↔
          (CO_PDOcobNormalize R.defaultCOB_ID R.nodeId (v % 4294967296) &&&
            0xBFFFF800 = 0 ∧ R.dataLength ≠ 0 ∧
           CO_PDOcobNormalize R.defaultCOB_ID R.nodeId (v % 4294967296) %
            65536 ≠ 0 ∧ bufOk = true))))) ∧
    (T.restrictionFlags &&& 0x04 = 0 →
      ¬(operational = true ∧ T.restrictionFlags &&& 0x01 ≠ 0) →
      ((T.valid = true →
        (CO_PDOcobNormalize T.defaultCOB_ID T.nodeId (v % 4294967296) ^^^
          T.cobStored) &&& 0x3FFFFFFF ≠ 0 →
        CO_ODF_TPDOcom T operational 1 v txOk = (CO_SDO_AB_INVALID_VALUE, T)) ∧
       (T.valid = false → v % 4294967296 &&& 0x3FFF8000 = 0 →
        (CO_ODF_TPDOcom T operational 1 v txOk).1 = CO_SDO_AB_NONE ∧
        ((CO_ODF_TPDOcom T operational 1 v txOk).2.valid = true ↔
          (CO_PDOcobNormalize T.defaultCOB_ID T.nodeId (v % 4294967296) &&&
            0xBFFFF800 = 0 ∧ T.dataLength ≠ 0 ∧
           CO_PDOcobNormalize T.defaultCOB_ID T.nodeId (v % 4294967296) %
            65536 ≠ 0 ∧ txOk = true))))) := by
  constructor
  · intro hro hop
    have h04 : ¬(R.restrictionFlags &&& 0x04 ≠ 0) := fun hh => hh hro
    constructor
    · intro hv hchg
      unfold CO_ODF_RPDOcom
      rw [if_neg h04, if_neg hop, if_pos (show (1 : Nat) = 1 from rfl)]
      by_cases hmask : (v % 4294967296) &&& 0x3FFF8000 ≠ 0
      · rw [if_pos hmask]
      · rw [if_neg hmask, if_pos ⟨hv, hchg⟩]
    · intro hv hmask
      have hmask2 : ¬(v % 4294967296 &&& 0x3FFF8000 ≠ 0) := fun hh => hh hmask
      have hnv : ¬(R.valid = true ∧
          (CO_PDOcobNormalize R.defaultCOB_ID R.nodeId (v % 4294967296) ^^^
            R.cobStored) &&& 0x3FFFFFFF ≠ 0) := by
        intro hh
        rw [hv] at hh
        exact absurd hh.1 (by simp)
      have heq : CO_ODF_RPDOcom R operational 1 v bufOk =
          (CO_SDO_AB_NONE,
           (CO_RPDOconfigCom R
             (CO_PDOcobNormalize R.defaultCOB_ID R.nodeId (v % 4294967296))
             bufOk).1) := by
        unfold CO_ODF_RPDOcom
        rw [if_neg h04, if_neg hop, if_pos (show (1 : Nat) = 1 from rfl),
          if_neg hmask2, if_neg hnv]
      rw [heq]
      exact ⟨rfl, CO_RPDOconfigCom_valid R _ bufOk⟩
  · intro hro hop
    have h04 : ¬(T.restrictionFlags &&& 0x04 ≠ 0) := fun hh => hh hro
    have h14 : ¬((1 : Nat) = 4) := by norm_num
    constructor
    · intro hv hchg
      unfold CO_ODF_TPDOcom
      rw [if_neg h14, if_neg h04, if_neg hop, if_pos (show (1 : Nat) = 1 from rfl)]
      by_cases hmask : (v % 4294967296) &&& 0x3FFF8000 ≠ 0
      · rw [if_pos hmask]
      · rw [if_neg hmask, if_pos ⟨hv, hchg⟩]
    · intro hv hmask
      have hmask2 : ¬(v % 4294967296 &&& 0x3FFF8000 ≠ 0) := fun hh => hh hmask
      have hnv : ¬(T.valid = true ∧
          (CO_PDOcobNormalize T.defaultCOB_ID T.nodeId (v % 4294967296) ^^^
            T.cobStored) &&& 0x3FFFFFFF ≠ 0) := by
        intro hh
        rw [hv] at hh
        exact absurd hh.1 (by simp)
      have heq : CO_ODF_TPDOcom T operational 1 v txOk =
          (CO_SDO_AB_NONE,
           { (CO_TPDOconfigCom T
               (CO_PDOcobNormalize T.defaultCOB_ID T.nodeId (v % 4294967296))
               T.syncFlag txOk).1 with syncCounter := 255 }) := by
        unfold CO_ODF_TPDOcom
        rw [if_neg h14, if_neg h04, if_neg hop,
          if_pos (show (1 : Nat) = 1 from rfl), if_neg hmask2, if_neg hnv]
      rw [heq]
      exact ⟨rfl, CO_TPDOconfigCom_valid T _ T.syncFlag txOk⟩

/-- Concrete currently-valid RPDO object for closed evaluations. -/
def sampleRPDOvalid : CO_RPDO_t := { sampleRPDO with valid := true }

/-- Concrete currently-valid TPDO object for closed evaluations. -/
def sampleTPDOvalid : CO_TPDO_t := { sampleTPDO with valid := true }

/-- Counterexample to C6 as stated: writing COB-ID `0x80000206` (bit 31
set, bits 0-29 differing from the stored `0x205`) to the invalid RPDO
succeeds (abort code 0) but leaves the object invalid, contradicting the
claim that such a write flips validity to true. -/
theorem ODF_com_cobid_live_change_cex :
    (CO_ODF_RPDOcom sampleRPDO false 1 0x80000206 true).1 = CO_SDO_AB_NONE ∧
    (CO_ODF_RPDOcom sampleRPDO false 1 0x80000206 true).2.valid = false ∧
    (0x80000206 ^^^ sampleRPDO.cobStored) &&& 0x3FFFFFFF ≠ 0 := by
  refine ⟨by decide, by decide, by decide⟩

/-- Witness for C6: a live bits-0-29 change is rejected with
`InvalidValue` on both sides; the same write on the invalid object
succeeds and (the value passing all validity conditions) flips validity
to true. -/
theorem ODF_com_cobid_live_change_w :
    (CO_ODF_RPDOcom sampleRPDOvalid false 1 0x206 true).1 =
      CO_SDO_AB_INVALID_VALUE ∧
    (CO_ODF_RPDOcom sampleRPDO false 1 0x206 true).1 = CO_SDO_AB_NONE ∧
    (CO_ODF_RPDOcom sampleRPDO false 1 0x206 true).2.valid = true ∧
    (CO_ODF_TPDOcom sampleTPDOvalid false 1 0x186 true).1 =
      CO_SDO_AB_INVALID_VALUE ∧
    (CO_ODF_TPDOcom sampleTPDO false 1 0x186 true).1 = CO_SDO_AB_NONE ∧
    (CO_ODF_TPDOcom sampleTPDO false 1 0x186 true).2.valid = true := by
  have h1 := ODF_com_cobid_live_change sampleRPDOvalid sampleTPDOvalid
    false 0x206 true true
  have h2 := ODF_com_cobid_live_change sampleRPDO sampleTPDO
    false 0x206 true true
  have h3 := ODF_com_cobid_live_change sampleRPDOvalid sampleTPDOvalid
    false 0x186 true true
  have h4 := ODF_com_cobid_live_change sampleRPDO sampleTPDO
    false 0x186 true true
  have e1 := (h1.1 (by decide) (by decide)).1 (by decide) (by decide)
  have e2 := (h2.1 (by decide) (by decide)).2 (by decide) (by decide)
  have e3 := (h3.2 (by decide) (by decide)).1 (by decide) (by decide)
  have e4 := (h4.2 (by decide) (by decide)).2 (by decide) (by decide)
  exact ⟨by rw [e1], e2.1, e2.2.mpr ⟨by decide, by decide, by decide, rfl⟩,
    by rw [e3], e4.1, e4.2.mpr ⟨by decide, by decide, by decide, rfl⟩⟩

/-- C7: any transmission-type write in the reserved range 241-253 is
rejected with `InvalidValue` by both communication handlers and leaves
the object unchanged, for every prior object state that passes the
generic write-permission gate. -/
theorem ODF_com_transmission_type_reserved (R : CO_RPDO_t) (T : CO_TPDO_t)
    (operational : Bool) (v : Nat) (bufOk txOk : Bool)
    (hroR : R.restrictionFlags &&& 0x04 = 0)
    (hopR : ¬(operational = true ∧ R.restrictionFlags &&& 0x01 ≠ 0))
    (hroT : T.restrictionFlags &&& 0x04 = 0)
    (hopT : ¬(operational = true ∧ T.restrictionFlags &&& 0x01 ≠ 0))
    (h241 : 241 ≤ v) (h253 : v ≤ 253) :
    CO_ODF_RPDOcom R operational 2 v bufOk = (CO_SDO_AB_INVALID_VALUE, R) ∧
    CO_ODF_TPDOcom T operational 2 v txOk = (CO_SDO_AB_INVALID_VALUE, T) := by
  have hv : v % 256 = v := Nat.mod_eq_of_lt (by omega)
  have hc : 241 ≤ v % 256 ∧ v % 256 ≤ 253 := by
    rw [hv]
    exact ⟨h241, h253⟩
  constructor
  · unfold CO_ODF_RPDOcom
    rw [if_neg (fun hh => hh hroR), if_neg hopR,
      if_neg (show ¬((2 : Nat) = 1) from by norm_num),
      if_pos (show (2 : Nat) = 2 from rfl), if_pos hc]
  · unfold CO_ODF_TPDOcom
    rw [if_neg (show ¬((2 : Nat) = 4) from by norm_num),
      if_neg (fun hh => hh hroT), if_neg hopT,
      if_neg (show ¬((2 : Nat) = 1) from by norm_num),
      if_pos (show (2 : Nat) = 2 from rfl), if_pos hc]

/-- Witness for C7: the reserved transmission type 245 is rejected by
both handlers on the concrete sample objects. -/
theorem ODF_com_transmission_type_reserved_w :
    CO_ODF_RPDOcom sampleRPDO false 2 245 true =
      (CO_SDO_AB_INVALID_VALUE, sampleRPDO) ∧
    CO_ODF_TPDOcom sampleTPDO false 2 245 true =
      (CO_SDO_AB_INVALID_VALUE, sampleTPDO) :=
  ODF_com_transmission_type_reserved sampleRPDO sampleTPDO false 245 true true
    (by decide) (by decide) (by decide) (by decide) (by decide) (by decide)

/-- C8 (amended): a dummy mapping descriptor (index 0-7, subindex 0)
requesting `len` bytes, with the running total within the 8-byte PDO
limit, resolves successfully exactly when `len` does not exceed the
dummy's fixed size, and fails with `NoMap` when it exceeds it.  (A
request beyond the 8-byte limit fails earlier with `MapLength` instead.) -/
theorem findMap_dummy (sdo : SDOmodel) (rt index len : Nat)
    (hidx : index ≤ 7) (hlen : len ≤ 8) :
    ((CO_PDOfindMap sdo (mkMap index 0 (8 * len)) rt 0).ret = 0 ↔
      len ≤ dummySize index) ∧
    (dummySize index < len →
      (CO_PDOfindMap sdo (mkMap index 0 (8 * len)) rt 0).ret =
        CO_SDO_AB_NO_MAP) := by
  have hm : mkMap index 0 (8 * len) = index * 65536 + 8 * len := by
    simp [mkMap]
  have hpow : (2 : Nat) ^ 16 = 65536 := by norm_num
  have hpow8 : (2 : Nat) ^ 8 = 256 := by norm_num
  have hbits : mkMap index 0 (8 * len) % 256 = 8 * len := by omega
  have hidx2 : (mkMap index 0 (8 * len) >>> 16) % 65536 = index := by
    rw [Nat.shiftRight_eq_div_pow, hpow]
    omega
  have hsub : (mkMap index 0 (8 * len) >>> 8) % 256 = 0 := by
    rw [Nat.shiftRight_eq_div_pow, hpow8]
    omega
  simp only [CO_PDOfindMap]
  rw [hbits, hidx2, hsub]
  have hdl : 8 * len / 8 = len := by omega
  rw [hdl]
  rw [if_neg (show ¬(8 * len % 8 ≠ 0) from by omega)]
  rw [if_neg (show ¬(8 < 0 + len) from by omega)]
  rw [if_pos ⟨hidx, rfl⟩]
  by_cases hd : dummySize index < len
  · rw [if_pos hd]
    refine ⟨iff_of_false (by simp [CO_SDO_AB_NO_MAP]) (by omega), fun _ => rfl⟩
  · rw [if_neg hd]
    exact ⟨iff_of_true rfl (Nat.le_of_not_lt hd), fun hc => absurd hc hd⟩

/-- Counterexample to C8 as stated: a dummy descriptor at index 2
requesting 9 bytes (72 bits) exceeds the dummy's 1-byte size but fails
with `MapLength` (the aggregate 8-byte check fires first), not with
`NoMap` as the claim requires. -/
theorem findMap_dummy_cex :
    (CO_PDOfindMap sdo0 (mkMap 2 0 72) 0 0).ret = CO_SDO_AB_MAP_LEN ∧
    CO_SDO_AB_MAP_LEN ≠ CO_SDO_AB_NO_MAP ∧ dummySize 2 < 9 := by
  refine ⟨by decide, by decide, by decide⟩

/-- Witness for C8: at dummy index 2 a 1-byte request succeeds and a
2-byte request fails with `NoMap`. -/
theorem findMap_dummy_w :
    (CO_PDOfindMap sdo0 (mkMap 2 0 8) 0 0).ret = 0 ∧
    (CO_PDOfindMap sdo0 (mkMap 2 0 16) 0 0).ret = CO_SDO_AB_NO_MAP := by
  have h1 := findMap_dummy sdo0 0 2 1 (by decide) (by decide)
  have h2 := findMap_dummy sdo0 0 2 2 (by decide) (by decide)
  exact ⟨h1.1.mpr (by decide), h2.2 (by decide)⟩

/-- C9: `CO_TPDOsend` copies, for each `i` below the aggregate
`dataLength`, the byte currently referenced by `mapPointer i` into CAN
frame byte `i`, clears the pending-send flag, and returns the outcome of
the external CAN send primitive. -/
theorem TPDOsend_copies (T : CO_TPDO_t) (mem : Nat → Nat) (r : Int) :
    (∀ i, i < T.dataLength →
      (CO_TPDOsend T mem r).1.canTxData i = mem (T.mapPointer i)) ∧
    (CO_TPDOsend T mem r).1.sendRequest = 0 ∧
    (CO_TPDOsend T mem r).2 = r := by
  refine ⟨fun i hi => ?_, rfl, rfl⟩
  simp [CO_TPDOsend, hi]

/-- OD model with two transmit-mappable variables: a 2-byte variable at
index 0x6000 (bytes at addresses 100-101) and a 1-byte variable at index
0x6001 (address 200). -/
def sdo1 : SDOmodel :=
  { find := fun i =>
      if i = 0x6000 then
        some { maxSubIndex := 1, attr := fun _ => 0x3C,
               odLength := fun _ => 2, dataPtr := fun _ => 100 }
      else if i = 0x6001 then
        some { maxSubIndex := 1, attr := fun _ => 0x3C,
               odLength := fun _ => 1, dataPtr := fun _ => 200 }
      else none,
    dummyRXaddr := 1000, dummyTXaddr := 2000 }

/-- TPDO object configured by `CO_TPDOconfigMap` with variable A (2
bytes) mapped first and variable B (1 byte) mapped second. -/
def sentTPDO : CO_TPDO_t :=
  { sampleTPDO with
    dataLength := (CO_TPDOconfigMap sdo1
      [mkMap 0x6000 1 16, mkMap 0x6001 1 8] mp0fun).dataLength,
    mapPointer := (CO_TPDOconfigMap sdo1
      [mkMap 0x6000 1 16, mkMap 0x6001 1 8] mp0fun).mapPointer,
    sendRequest := 1 }

/-- Identity byte memory used in closed evaluations (each address holds
its own value, making the copied bytes recognisable). -/
def memId : Nat → Nat := fun a => a

/-- Witness for C9: sending the configured TPDO puts A's bytes into frame
bytes 0-1 and B's byte into frame byte 2, clears the pending-send flag
and returns the CAN outcome. -/
theorem TPDOsend_copies_w :
    (CO_TPDOsend sentTPDO memId 0).1.canTxData 0 = 100 ∧
    (CO_TPDOsend sentTPDO memId 0).1.canTxData 1 = 101 ∧
    (CO_TPDOsend sentTPDO memId 0).1.canTxData 2 = 200 ∧
    (CO_TPDOsend sentTPDO memId 0).1.sendRequest = 0 ∧
    (CO_TPDOsend sentTPDO memId 0).2 = 0 := by
  have h := TPDOsend_copies sentTPDO memId 0
  exact ⟨(h.1 0 (by decide)).trans (by decide),
    (h.1 1 (by decide)).trans (by decide),
    (h.1 2 (by decide)).trans (by decide), h.2.1, h.2.2⟩

/-- C10: `CO_RPDO_process` on an invalid object or a non-operational
device clears both receive-new flags and changes nothing else (no OD byte
is written); on a valid, operational, synchronous object with no SYNC
this tick it changes nothing at all. -/
theorem RPDO_process_gates (R : CO_RPDO_t)
    (operational syncWas syncPresent syncToggle : Bool) (mem : Nat → Nat) :
    (R.valid = false ∨ operational = false →
      CO_RPDO_process R operational syncWas syncPresent syncToggle mem =
        ({ R with canRxNew0 := false, canRxNew1 := false }, mem)) ∧
    (R.valid = true → operational = true → R.synchronous = true →
      syncWas = false →
      CO_RPDO_process R operational syncWas syncPresent syncToggle mem =
        (R, mem)) := by
  constructor
  · intro h
    unfold CO_RPDO_process
    rw [if_pos h]
  · intro hv ho hs hw
    unfold CO_RPDO_process
    rw [if_neg (by simp [hv, ho]), if_pos ⟨hs, hw⟩]

/-- Concrete valid synchronous RPDO object for closed evaluations. -/
def sampleRPDOsync : CO_RPDO_t :=
  { sampleRPDO with valid := true, synchronous := true }

/-- Witness for C10: the invalid sample object gets its flags cleared
with memory untouched; the valid synchronous object with no SYNC this
tick is left fully unchanged. -/
theorem RPDO_process_gates_w :
    CO_RPDO_process sampleRPDO true false true true memId =
      ({ sampleRPDO with canRxNew0 := false, canRxNew1 := false }, memId) ∧
    CO_RPDO_process sampleRPDOsync true false true true memId =
      (sampleRPDOsync, memId) :=
  ⟨(RPDO_process_gates sampleRPDO true false true true memId).1 (Or.inl rfl),
   (RPDO_process_gates sampleRPDOsync true false true true memId).2
     rfl rfl rfl rfl⟩
